import Mathlib

/-!
Verification of the SAGE ESG-compliance reporting pipeline.

This file gives a shallow embedding, in Lean, of the data-transformation
core of the repository: the gap-analysis aggregation (`ResultsDashboard`,
both historical variants found in the source), the disclosure sampler,
the excerpt truncation helper, the report cache freshness check
(`Report.jsx`), the two markdown renderers (`convertMarkdownToHTML` and
`renderMarkdown` in `Report.jsx`), and the workbook export
(`downloadExcel`).  JavaScript values that may be `null`/`undefined` are
embedded as `Option`; JavaScript truthiness tests (`!x`, `x || d`) are
embedded by explicit helpers that treat `none` and the empty string as
falsy, mirroring the language semantics.  Numeric match scores are
embedded as rationals; their only use in the modelled code is to be
formatted into free-text fields, which no verified property inspects.
-/

set_option maxRecDepth 10000

namespace SAGE

/-! ## JavaScript-style helpers -/

/-- JS `a || d` for a possibly-absent string: `null`/`undefined` and the
empty string are falsy. -/
def jsOrOpt (a : Option String) (d : String) : String :=
  match a with
  | none => d
  | some s => if s = "" then d else s

/-- JS `a || b || d` for two possibly-absent strings. -/
def jsOr2 (a b : Option String) (d : String) : String :=
  match a with
  | none => jsOrOpt b d
  | some s => if s = "" then jsOrOpt b d else s

/-- JS `String.prototype.toUpperCase` (ASCII is all the source uses). -/
def toUpper (s : String) : String :=
  String.mk (s.toList.map Char.toUpper)

/-! ## Data model (§3 of the spec, shapes read off the source accesses) -/

/-- One entry of `matched_disclosures` inside a `RegulationMatch`. -/
structure MatchedDisclosure where
  disclosure_id : Option String
  disclosure_text : Option String
deriving DecidableEq, Repr

/-- A regulation-to-disclosure match row of the raw analysis payload. -/
structure RegulationMatch where
  regulation_id : Option String
  regulation_text : Option String
  best_match_score : Option Rat
  matched_disclosures : Option (List MatchedDisclosure)
deriving DecidableEq, Repr

/-- A disclosure-to-regulation match row of the raw analysis payload. -/
structure DisclosureMatch where
  disclosure_text : Option String
  is_strong_match : Bool
deriving DecidableEq, Repr

/-- `coverage_statistics` of a category's `gap_analysis`. -/
structure CoverageStats where
  total_regulations : Nat
  fully_covered : Nat
  coverage_percentage : Rat
deriving DecidableEq, Repr

/-- The `gap_analysis` sub-object of a category. -/
structure GapAnalysisData where
  coverage_statistics : Option CoverageStats
  uncovered_regulations : Option (List RegulationMatch)
  partially_covered_regulations : Option (List RegulationMatch)
  covered_regulations : Option (List RegulationMatch)
deriving DecidableEq, Repr

/-- The `metadata` sub-object of a category. -/
structure CategoryMetadata where
  category : Option String
  regulation_id : Option String
deriving DecidableEq, Repr

/-- One category's record of the `detailed_results` payload. -/
structure CategoryMatch where
  metadata : Option CategoryMetadata
  disclosure_to_regulation_matches : Option (List DisclosureMatch)
  regulation_to_disclosure_matches : Option (List RegulationMatch)
  gap_analysis : Option GapAnalysisData
deriving DecidableEq, Repr

/-- `detailed_results`: the three fixed category slots. -/
structure DetailedResults where
  environmental : Option CategoryMatch
  social : Option CategoryMatch
  governance : Option CategoryMatch
deriving DecidableEq, Repr

/-! ## `truncateText` (identical in both `ResultsDashboard` variants)

```js
const truncateText = (text, maxLength) => {
  if (!text) return 'No text available';
  if (text.length <= maxLength) return text;
  return text.substring(0, maxLength) + '...';
};
```
-/

/-- Excerpt truncation.  `none` stands for JS `null`/`undefined`; the JS
guard `!text` is also true for the empty string. -/
def truncateText (text : Option String) (maxLength : Nat) : String :=
  match text with
  | none => "No text available"
  | some t =>
    if t = "" then "No text available"
    else if t.length ≤ maxLength then t
    else String.mk (t.toList.take maxLength) ++ "..."

/-! ## Disclosure Sampler (`extractTopDisclosures`, identical in both variants)

```js
const extractTopDisclosures = (categoryData) => {
  if (!categoryData || !categoryData.disclosure_to_regulation_matches) {
    return ['No disclosure data available'];
  }
  const strongMatches = categoryData.disclosure_to_regulation_matches
    .filter(match => match.is_strong_match).slice(0, 4)
    .map(match => truncateText(match.disclosure_text, 80));
  if (strongMatches.length < 4) {
    const allMatches = categoryData.disclosure_to_regulation_matches
      .slice(0, 4).map(match => truncateText(match.disclosure_text, 80));
    return allMatches;
  }
  return strongMatches.length > 0 ? strongMatches : ['No strong matches found'];
};
```
Note the guard `!categoryData.disclosure_to_regulation_matches` is false
for a present-but-empty array (`[]` is truthy in JS), so only absence of
the field reaches the sentinel branch. -/
def extractTopDisclosures (categoryData : Option CategoryMatch) : List String :=
  match categoryData with
  | none => ["No disclosure data available"]
  | some cd =>
    match cd.disclosure_to_regulation_matches with
    | none => ["No disclosure data available"]
    | some ms =>
      let strongMatches :=
        ((ms.filter (·.is_strong_match)).take 4).map
          (fun m => truncateText m.disclosure_text 80)
      if strongMatches.length < 4 then
        (ms.take 4).map (fun m => truncateText m.disclosure_text 80)
      else if strongMatches.length > 0 then strongMatches
      else ["No strong matches found"]

/-! ## Report Cache (`Report.jsx`, `loadOrGenerateReport` / `generateReport`)

`generateReport` stores the payload with `timestamp: new Date().toISOString()`;
`loadOrGenerateReport` serves the stored report only when
`Date.now() - timestamp < 3600000`.  Times are embedded as integer epoch
milliseconds. -/

/-- A report as persisted in the `complianceReport` storage slot.  The
payload body is opaque to the cache logic. -/
structure StoredReport where
  timestamp : Int
  body : String
deriving DecidableEq, Repr

/-- The 1-hour freshness window, in milliseconds (`3600000` in the source). -/
def freshWindowMs : Int := 3600000

/-- `store`: stamp the payload with the current time (mirrors
`reportWithTimestamp`). -/
def storeReport (body : String) (now : Int) : StoredReport :=
  { timestamp := now, body := body }

/-- `load`: serve the stored report only while it is fresh; `none` means
the caller falls through to regeneration. -/
def loadCachedReport (stored : Option StoredReport) (now : Int) : Option StoredReport :=
  match stored with
  | none => none
  | some r => if now - r.timestamp < freshWindowMs then some r else none

/-! ## Stable sort by a numeric key

Embedding of JS `Array.prototype.sort` with the comparator
`(a, b) => statusPriority[a.status] - statusPriority[b.status]`:
ECMAScript mandates a stable sort, realised here as stable insertion
sort (an element is placed before the first element whose key is not
smaller, so equal-key elements keep their relative order). -/

/-- Insert `x` before the first element whose key is `≥ key x`. -/
def insertByKey {α : Type} (key : α → Nat) (x : α) : List α → List α
  | [] => [x]
  | y :: ys => if key x ≤ key y then x :: y :: ys else y :: insertByKey key x ys

/-- Stable sort by `key` (insertion sort). -/
def stableSortBy {α : Type} (key : α → Nat) : List α → List α
  | [] => []
  | x :: xs => insertByKey key x (stableSortBy key xs)

/-! ## Gap Aggregator, first variant (`extractGapAnalysis`, part_003 lines 132-185)

```js
const extractGapAnalysis = (detailedResults) => {
  const gaps = [];
  let gapId = 1;
  ['environmental', 'social', 'governance'].forEach(category => {
    const categoryData = detailedResults[category];
    if (!categoryData || !categoryData.gap_analysis) return;
    const gapData = categoryData.gap_analysis;
    gapData.uncovered_regulations?.slice(0, 3).forEach(reg => {
      gaps.push({ id: (gapId++).toString(), gap: truncateText(reg.regulation_text, 60),
        expectation: `${categoryData.metadata.regulation_id} requirement - Coverage score: ${reg.best_match_score}`,
        status: 'missing', category: category, score: reg.best_match_score }); });
    gapData.partially_covered_regulations?.slice(0, 2).forEach(reg => { ... status: 'partial' ... });
    gapData.covered_regulations?.slice(0, 1).forEach(reg => { ... status: 'complete' ... });
  });
  const statusPriority = { missing: 1, partial: 2, complete: 3 };
  return gaps.sort((a, b) => statusPriority[a.status] - statusPriority[b.status]).slice(0, 10);
};
```
The mutable `gapId` counter is embedded by gathering the selected rows
first (`selectedRows`) and numbering them consecutively from 1
(`numberRows`), which is exactly the order the pushes happen in. -/

/-- A derived gap record of the first aggregator variant. -/
structure GapRecord where
  id : String
  gap : String
  expectation : String
  status : String
  category : String
  score : Option Rat
deriving DecidableEq, Repr

/-- The `statusPriority` lookup object.  Statuses other than the three
produced ones never occur in the sorted list; the catch-all value only
totalises the JS object lookup. -/
def statusPriority : String → Nat
  | "missing" => 1
  | "partial" => 2
  | "complete" => 3
  | _ => 0

/-- Stand-in for JS template interpolation of the optional numeric
score (`${reg.best_match_score}`): `undefined` prints as "undefined";
the exact decimal rendering of a JS number is abstracted by the
rational's representation.  Free text only; no verified property
inspects it. -/
def scoreInterp : Option Rat → String
  | none => "undefined"
  | some q => toString q

/-- A selected regulation before id numbering: the loop category, the
interpolated `categoryData.metadata.regulation_id`, the status literal
and the regulation itself. -/
structure RowInfo where
  category : String
  regName : String
  status : String
  reg : RegulationMatch
deriving DecidableEq, Repr

/-- Interpolation of `categoryData.metadata.regulation_id` (an absent
field interpolates as "undefined"). -/
def metaRegName (md : Option CategoryMetadata) : String :=
  match md with
  | none => "undefined"
  | some m => m.regulation_id.getD "undefined"

/-- The rows one category contributes, in push order: up to 3 uncovered
(`missing`), then up to 2 partially covered (`partial`), then up to 1
covered (`complete`).  An absent category or absent `gap_analysis` is
skipped; an absent regulation list contributes nothing (JS optional
chaining short-circuits the `forEach`). -/
def categoryRows (category : String) (categoryData : Option CategoryMatch) : List RowInfo :=
  match categoryData with
  | none => []
  | some cd =>
    match cd.gap_analysis with
    | none => []
    | some gapData =>
      let regName := metaRegName cd.metadata
      ((gapData.uncovered_regulations.getD []).take 3).map
          (fun reg => { category := category, regName := regName, status := "missing", reg := reg }) ++
        ((gapData.partially_covered_regulations.getD []).take 2).map
          (fun reg => { category := category, regName := regName, status := "partial", reg := reg }) ++
        ((gapData.covered_regulations.getD []).take 1).map
          (fun reg => { category := category, regName := regName, status := "complete", reg := reg })

/-- All selected rows, categories in the fixed source order. -/
def selectedRows (detailedResults : DetailedResults) : List RowInfo :=
  categoryRows "environmental" detailedResults.environmental ++
    categoryRows "social" detailedResults.social ++
    categoryRows "governance" detailedResults.governance

/-- Build the record pushed for a selected row, given the value of the
`gapId` counter at push time. -/
def mkGapRecord (gapId : Nat) (r : RowInfo) : GapRecord :=
  { id := toString gapId
    gap := truncateText r.reg.regulation_text 60
    expectation := r.regName ++ " requirement - Coverage score: " ++ scoreInterp r.reg.best_match_score
    status := r.status
    category := r.category
    score := r.reg.best_match_score }

/-- Number the selected rows with the consecutive `gapId` counter. -/
def numberRows (gapId : Nat) : List RowInfo → List GapRecord
  | [] => []
  | r :: rs => mkGapRecord gapId r :: numberRows (gapId + 1) rs

/-- The `gaps` array as fully pushed, ids counted from 1. -/
def gatherGaps (detailedResults : DetailedResults) : List GapRecord :=
  numberRows 1 (selectedRows detailedResults)

/-- The first-variant aggregator: stable sort by status priority, then
`slice(0, 10)`. -/
def extractGapAnalysis (detailedResults : DetailedResults) : List GapRecord :=
  (stableSortBy (fun g => statusPriority g.status) (gatherGaps detailedResults)).take 10

/-! ## Gap Aggregator, second variant (`extractGapAnalysis`, part_003 lines 552-601)

```js
const extractGapAnalysis = (detailedResults) => {
  const categories = ['environmental', 'social', 'governance'];
  let allRows = [];
  categories.forEach(category => {
    const catData = detailedResults[category];
    if (!catData || !catData.gap_analysis) return;
    const metadata = catData.metadata || {};
    const regMatches = catData.regulation_to_disclosure_matches || [];
    const regMap = {};
    regMatches.forEach(r => {
      regMap[r.regulation_id] = {
        text: r.regulation_text,
        disclosureText: r.matched_disclosures?.[0]?.disclosure_text || 'No matching disclosure found',
        disclosureId: r.matched_disclosures?.[0]?.disclosure_id || 'N/A',
        score: r.best_match_score ? (r.best_match_score * 100).toFixed(1) : 'N/A'
      };
    });
    const makeRow = (regObj, status) => { ... };
    const gap = catData.gap_analysis;
    const missing = (gap.uncovered_regulations || []).map(r => makeRow(r, 'MISSING'));
    const partial = (gap.partially_covered_regulations || []).map(r => makeRow(r, 'PARTIAL'));
    const covered = (gap.covered_regulations || []).map(r => makeRow(r, 'COVERED'));
    allRows = [...allRows, ...missing, ...partial, ...covered];
  });
  return allRows;
};
```
No per-category cap, no ids, no sort; statuses are the uppercase
literals.  `loadAnalysisResults` (lines 503-508) keeps the whole list as
`completeGapAnalysis` and `allGaps.slice(0, 7)` as the display list. -/

/-- A row of the second aggregator variant (the shape written to the
workbook). -/
structure ExcelRow where
  category : String
  status : String
  regulationId : String
  frameworkText : String
  disclosureId : String
  disclosureText : String
  regulationName : String
  coverageScore : String
deriving DecidableEq, Repr

/-- Decimal rendering of a rational with one digit after the point,
rounding half away from zero: stand-in for `Number.toFixed(1)` (the
floating-point representation of the upstream score is abstracted by a
rational).  Free text only; no verified property inspects it. -/
def ratToFixed1 (q : Rat) : String :=
  let sign := if q < 0 then "-" else ""
  let n := (|q| * 10 + 1 / 2).floor.toNat
  sign ++ toString (n / 10) ++ "." ++ toString (n % 10)

/-- `r.best_match_score ? (r.best_match_score * 100).toFixed(1) : 'N/A'`
(the number `0` is falsy in JS). -/
def scoreFmt : Option Rat → String
  | none => "N/A"
  | some q => if q = 0 then "N/A" else ratToFixed1 (q * 100)

/-- The value stored in `regMap` for one regulation. -/
structure RegEntry where
  text : Option String
  disclosureText : String
  disclosureId : String
  score : String
deriving DecidableEq, Repr

/-- The property key under which a regulation is stored in `regMap`
(JS object keys are strings; `undefined` stringifies to "undefined"). -/
def regKey (r : RegulationMatch) : String :=
  r.regulation_id.getD "undefined"

/-- The entry `regMap[r.regulation_id]` is assigned. -/
def regEntryOf (r : RegulationMatch) : RegEntry :=
  { text := r.regulation_text
    disclosureText := jsOrOpt ((r.matched_disclosures.bind (·.head?)).bind (·.disclosure_text))
      "No matching disclosure found"
    disclosureId := jsOrOpt ((r.matched_disclosures.bind (·.head?)).bind (·.disclosure_id)) "N/A"
    score := scoreFmt r.best_match_score }

/-- `regMap[regId]`: object assignment is last-write-wins, so look up
the last regulation with the given key. -/
def lookupRegMap (regMatches : List RegulationMatch) (regId : String) : Option RegEntry :=
  (regMatches.reverse.find? (fun r => regKey r = regId)).map regEntryOf

/-- The `makeRow` closure of the second variant. -/
def makeRow (category : String) (metadata : CategoryMetadata)
    (regMatches : List RegulationMatch) (regObj : RegulationMatch) (status : String) : ExcelRow :=
  let regId := jsOrOpt regObj.regulation_id "N/A"
  let entry? := lookupRegMap regMatches regId
  { category := jsOrOpt metadata.category category
    status := status
    regulationId := regId
    frameworkText := jsOr2 (entry?.bind (·.text)) regObj.regulation_text "N/A"
    disclosureId := jsOrOpt (entry?.map (·.disclosureId)) "N/A"
    disclosureText := jsOrOpt (entry?.map (·.disclosureText)) "No matching disclosure found"
    regulationName := jsOrOpt metadata.regulation_id "BRSR"
    coverageScore := jsOrOpt (entry?.map (·.score)) "N/A" }

/-- The rows one category contributes in the second variant: every
uncovered regulation (`MISSING`), then every partially covered
(`PARTIAL`), then every covered (`COVERED`) — no caps. -/
def categoryRowsV2 (category : String) (catData : Option CategoryMatch) : List ExcelRow :=
  match catData with
  | none => []
  | some cd =>
    match cd.gap_analysis with
    | none => []
    | some gap =>
      let metadata := cd.metadata.getD { category := none, regulation_id := none }
      let regMatches := cd.regulation_to_disclosure_matches.getD []
      (gap.uncovered_regulations.getD []).map (fun r => makeRow category metadata regMatches r "MISSING") ++
        (gap.partially_covered_regulations.getD []).map (fun r => makeRow category metadata regMatches r "PARTIAL") ++
        (gap.covered_regulations.getD []).map (fun r => makeRow category metadata regMatches r "COVERED")

/-- The second-variant aggregator (`allRows`): the complete gap list. -/
def extractGapAnalysisV2 (detailedResults : DetailedResults) : List ExcelRow :=
  categoryRowsV2 "environmental" detailedResults.environmental ++
    categoryRowsV2 "social" detailedResults.social ++
    categoryRowsV2 "governance" detailedResults.governance

/-- `loadAnalysisResults` keeps `allGaps.slice(0, 7)` for the
interactive view (`displayGaps`). -/
def displayGaps (detailedResults : DetailedResults) : List ExcelRow :=
  (extractGapAnalysisV2 detailedResults).take 7

/-- Modelled from the spec (§4.3 post-processing), for comparison with
the code: the status priority `missing(1) < partial(2) < complete(3)`,
keyed on the uppercase status literals the second variant actually
produces. -/
def specStatusPriority : String → Nat
  | "MISSING" => 1
  | "PARTIAL" => 2
  | "COVERED" => 3
  | _ => 0

/-- Modelled from the spec (§4.3 post-processing): the display subset
the spec describes — the first 7 records after a stable status-priority
sort of the complete gap list. -/
def specDisplayGaps (detailedResults : DetailedResults) : List ExcelRow :=
  (stableSortBy (fun r => specStatusPriority r.status) (extractGapAnalysisV2 detailedResults)).take 7

/-! ## Tabular export (`downloadExcel`, part_003 lines 638-699)

```js
const downloadExcel = () => {
  if (completeGapAnalysis.length === 0) {
    alert('No gap analysis data available to download');
    return;
  }
  const excelData = completeGapAnalysis.map((item, index) => ({ ... }));
  ...
  const summaryData = [
    { 'Metric': 'Company Name', 'Value': metadata?.companyName || 'N/A' },
    { 'Metric': 'Report Year', 'Value': metadata?.reportYear || 'N/A' },
    { 'Metric': 'Regulation', 'Value': metadata?.regulationId || 'N/A' },
    { 'Metric': 'Total Regulations Analyzed', 'Value': completeGapAnalysis.length },
    { 'Metric': 'Missing Coverage', 'Value': completeGapAnalysis.filter(g => g.status === 'missing').length },
    { 'Metric': 'Partial Coverage', 'Value': completeGapAnalysis.filter(g => g.status === 'partial').length },
    { 'Metric': 'Complete Coverage', 'Value': completeGapAnalysis.filter(g => g.status === 'complete').length }
  ];
  ...
  XLSX.writeFile(wb, filename);
};
```
The empty-list refusal is embedded as `Except.error`; a produced
workbook as `Except.ok`.  Column-width hints and the clock-dependent
filename are presentation only and not modelled. -/

/-- Component metadata used by the export (set in `loadAnalysisResults`). -/
structure ReportMetadata where
  companyName : String
  reportYear : String
  regulationId : String
deriving DecidableEq, Repr

/-- One row of the "Gap Analysis" sheet. -/
structure ExcelGapRow where
  sNo : Nat
  category : String
  status : String
  regulationClauseId : String
  frameworkRequirementText : String
  disclosureClauseId : String
  companyDisclosureText : String
  regulationName : String
  coverageScorePct : String
deriving DecidableEq, Repr

/-- One row of the "Summary" sheet (values stringified). -/
structure SummaryRow where
  metric : String
  value : String
deriving DecidableEq, Repr

/-- The produced two-sheet workbook. -/
structure Workbook where
  gapSheet : List ExcelGapRow
  summarySheet : List SummaryRow
deriving DecidableEq, Repr

/-- The workbook export. -/
def downloadExcel (completeGapAnalysis : List ExcelRow) (metadata : Option ReportMetadata) :
    Except String Workbook :=
  if completeGapAnalysis.length = 0 then
    .error "No gap analysis data available to download"
  else
    let excelData := (List.range completeGapAnalysis.length).zip completeGapAnalysis |>.map
      (fun (p : Nat × ExcelRow) =>
        { sNo := p.1 + 1
          category := p.2.category
          status := jsOrOpt (some (toUpper p.2.status)) "N/A"
          regulationClauseId := jsOrOpt (some p.2.regulationId) "N/A"
          frameworkRequirementText := jsOrOpt (some p.2.frameworkText) "N/A"
          disclosureClauseId := jsOrOpt (some p.2.disclosureId) "N/A"
          companyDisclosureText := jsOrOpt (some p.2.disclosureText) "N/A"
          regulationName := jsOr2 (some p.2.regulationName) (metadata.map (·.regulationId)) "N/A"
          coverageScorePct := jsOrOpt (some p.2.coverageScore) "N/A" : ExcelGapRow })
    let summaryData : List SummaryRow := [
      { metric := "Company Name", value := jsOrOpt (metadata.map (·.companyName)) "N/A" },
      { metric := "Report Year", value := jsOrOpt (metadata.map (·.reportYear)) "N/A" },
      { metric := "Regulation", value := jsOrOpt (metadata.map (·.regulationId)) "N/A" },
      { metric := "Total Regulations Analyzed", value := toString completeGapAnalysis.length },
      { metric := "Missing Coverage",
        value := toString (completeGapAnalysis.filter (fun g => g.status = "missing")).length },
      { metric := "Partial Coverage",
        value := toString (completeGapAnalysis.filter (fun g => g.status = "partial")).length },
      { metric := "Complete Coverage",
        value := toString (completeGapAnalysis.filter (fun g => g.status = "complete")).length } ]
    .ok { gapSheet := excelData, summarySheet := summaryData }

/-! ## Markdown Renderer (`Report.jsx`)

Strings are processed as character lists.  The regex substitutions of
`convertMarkdownToHTML` are embedded rule by rule; since `.` does not
match a newline, every pattern of the source matches within a single
line, so the global substitutions of the heading/bold/list rules are
per-line maps.  Recursive scans use a fuel argument bounded by the
input length (every step consumes at least one character), purely as a
structural-recursion device. -/

/-- Index of the first occurrence of `pat` in `l` (leftmost regex match
position for a literal pattern). -/
def findSubIdx (pat : List Char) : List Char → Option Nat
  | [] => if pat = [] then some 0 else none
  | c :: rest =>
    if pat.isPrefixOf (c :: rest) then some 0
    else (findSubIdx pat rest).map (· + 1)

/-- Replace every occurrence of `pat` (left to right, non-overlapping,
the replacement is not rescanned) — JS `replace(/pat/g, repl)` for a
literal pattern. -/
def replaceAllAux (pat repl : List Char) : Nat → List Char → List Char
  | 0, l => l
  | fuel + 1, l =>
    match findSubIdx pat l with
    | none => l
    | some i => l.take i ++ repl ++ replaceAllAux pat repl fuel (l.drop (i + pat.length))

/-- `replaceAll` with sufficient fuel. -/
def replaceAll (pat repl l : List Char) : List Char :=
  replaceAllAux pat repl (l.length + 1) l

/-- Apply a per-line rewrite to every line (split on `'\n'`, map, join):
the shape of every global regex substitution whose pattern cannot cross
a line. -/
def applyPerLine (f : List Char → List Char) (s : List Char) : List Char :=
  List.intercalate ['\n'] ((s.splitOn '\n').map f)

/-- One heading rule, e.g. `replace(/### (.*)/g, '<h3>$1</h3>')` on one
line: the leftmost occurrence of the marker (`"### "`) starts the
match, the greedy `(.*)` captures the rest of the line. -/
def headingLine (marker pre post line : List Char) : List Char :=
  match findSubIdx marker line with
  | none => line
  | some i => line.take i ++ pre ++ line.drop (i + marker.length) ++ post

/-- The bold rule `replace(/\*\*(.*?)\*\*/g, '<strong>$1</strong>')` on
one line: each match runs from a `**` to the next `**` (the lazy
capture), scanning left to right. -/
def boldLineAux : Nat → List Char → List Char
  | 0, l => l
  | fuel + 1, l =>
    match findSubIdx ['*', '*'] l with
    | none => l
    | some i =>
      let rest := l.drop (i + 2)
      match findSubIdx ['*', '*'] rest with
      | none => l
      | some j =>
        l.take i ++ "<strong>".toList ++ rest.take j ++ "</strong>".toList ++
          boldLineAux fuel (rest.drop (j + 2))

/-- `boldLine` with sufficient fuel. -/
def boldLine (l : List Char) : List Char :=
  boldLineAux l.length l

/-- A list rule, e.g. `replace(/^\* (.*)/gm, '<li>$1</li>')` on one
line (`m` flag: `^` anchors at each line start). -/
def bulletLine (c : Char) (line : List Char) : List Char :=
  if [c, ' '].isPrefixOf line then "<li>".toList ++ line.drop 2 ++ "</li>".toList
  else line

/-- Document-mode renderer:

```js
const convertMarkdownToHTML = (markdown) => {
  if (!markdown) return '';
  return markdown
    .replace(/### (.*)/g, '<h3>$1</h3>')
    .replace(/## (.*)/g, '<h2>$1</h2>')
    .replace(/# (.*)/g, '<h1>$1</h1>')
    .replace(/\*\*(.*?)\*\*/g, '<strong>$1</strong>')
    .replace(/^\* (.*)/gm, '<li>$1</li>')
    .replace(/^- (.*)/gm, '<li>$1</li>')
    .replace(/\n\n/g, '</p><p>')
    .replace(/\n/g, '<br>');
};
```
-/
def convertMarkdownToHTML (markdown : Option String) : String :=
  match markdown with
  | none => ""
  | some md =>
    if md = "" then ""
    else
      let s := applyPerLine (headingLine "### ".toList "<h3>".toList "</h3>".toList) md.toList
      let s := applyPerLine (headingLine "## ".toList "<h2>".toList "</h2>".toList) s
      let s := applyPerLine (headingLine "# ".toList "<h1>".toList "</h1>".toList) s
      let s := applyPerLine boldLine s
      let s := applyPerLine (bulletLine '*') s
      let s := applyPerLine (bulletLine '-') s
      let s := replaceAll "\n\n".toList "</p><p>".toList s
      let s := replaceAll "\n".toList "<br>".toList s
      String.mk s

/-! ### Interactive mode (`renderMarkdown`) -/

/-- One part of a bold-bearing paragraph: the source renders the parts
of `line.split(/\*\*(.*?)\*\*/g)` with the odd-indexed (captured) parts
as `<strong>` spans. -/
inductive InlinePart where
  | plain (t : String)
  | bold (t : String)
deriving DecidableEq, Repr

/-- One rendered block of a section's content. -/
inductive RBlock where
  /-- a blank line renders as `<br />` -/
  | lineBreak
  /-- a line containing `**` renders as a paragraph of inline parts -/
  | boldPara (parts : List InlinePart)
  /-- a line whose trimmed form starts with `*` or `-` renders as a
  list item -/
  | listItem (t : String)
  /-- any other line renders as a plain paragraph -/
  | textPara (t : String)
deriving DecidableEq, Repr

/-- A rendered section: the optional `###` title (rendered only when
non-empty, `{header && ...}`) and the content blocks. -/
structure MdSection where
  header : Option String
  blocks : List RBlock
deriving DecidableEq, Repr

/-- JS `String.prototype.trim` whitespace test (the characters the
source's inputs can contain). -/
def isWS (c : Char) : Bool :=
  c = ' ' || c = '\n' || c = '\t' || c = '\r'

/-- JS `trim`. -/
def trimL (l : List Char) : List Char :=
  ((l.dropWhile isWS).reverse.dropWhile isWS).reverse

/-- `markdown.split(/(?=###)/)`: split before every occurrence of
`###` at an index ≥ 1 (a zero-width match at the start produces no
leading empty piece). -/
def splitBeforeAux (pat : List Char) : Nat → List Char → List (List Char)
  | 0, s => [s]
  | fuel + 1, s =>
    match findSubIdx pat (s.drop 1) with
    | none => [s]
    | some j => s.take (1 + j) :: splitBeforeAux pat fuel (s.drop (1 + j))

/-- `splitBefore` with sufficient fuel. -/
def splitBefore (pat : List Char) (s : List Char) : List (List Char) :=
  splitBeforeAux pat (s.length + 1) s

/-- `line.split(/\*\*(.*?)\*\*/g)`: the segments between bold matches
interleaved with the captured contents. -/
def boldSplitAux : Nat → List Char → List (List Char)
  | 0, l => [l]
  | fuel + 1, l =>
    match findSubIdx ['*', '*'] l with
    | none => [l]
    | some i =>
      let rest := l.drop (i + 2)
      match findSubIdx ['*', '*'] rest with
      | none => [l]
      | some j => l.take i :: rest.take j :: boldSplitAux fuel (rest.drop (j + 2))

/-- `boldSplit` with sufficient fuel. -/
def boldSplit (l : List Char) : List (List Char) :=
  boldSplitAux l.length l

/-- The parts of a bold-bearing line: odd-indexed split results are the
captures, rendered as `<strong>` spans. -/
def boldParts (line : List Char) : List InlinePart :=
  ((List.range (boldSplit line).length).zip (boldSplit line)).map
    (fun (p : Nat × List Char) =>
      if p.1 % 2 = 1 then .bold (String.mk p.2) else .plain (String.mk p.2))

/-- `line.replace(/^[\*\-]\s*/, '')`: strip one leading `*` or `-` and
the following whitespace (anchored, so only at the very start of the
untrimmed line). -/
def stripBullet (line : List Char) : List Char :=
  match line with
  | c :: rest => if c = '*' || c = '-' then rest.dropWhile isWS else line
  | [] => line

/-- Render one content line:

```js
if (!line.trim()) return <br/>;
if (line.includes('**')) { const parts = line.split(/\*\*(.*?)\*\*/g); return <p>{...}</p>; }
if (line.trim().startsWith('*') || line.trim().startsWith('-')) return <li>{line.replace(/^[\*\-]\s*/, '')}</li>;
return <p>{line}</p>;
```
-/
def renderLine (line : List Char) : RBlock :=
  if trimL line = [] then .lineBreak
  else if (findSubIdx ['*', '*'] line).isSome then .boldPara (boldParts line)
  else if (trimL line).head? = some '*' || (trimL line).head? = some '-' then
    .listItem (String.mk (stripBullet line))
  else .textPara (String.mk line)

/-- `section.replace(/^###\s*/, '')` header text. -/
def stripHeaderMark (l : List Char) : List Char :=
  if "###".toList.isPrefixOf l then (l.drop 3).dropWhile isWS else l

/-- Render one section of the interactive view; `none` models the
`null` returned for a whitespace-only section. -/
def renderSection (s : List Char) : Option MdSection :=
  if trimL s = [] then none
  else
    let lines := s.splitOn '\n'
    let firstLine := lines.headD []
    let isHeader := "###".toList.isPrefixOf firstLine
    let header := if isHeader then stripHeaderMark firstLine else []
    let content := if isHeader then List.intercalate ['\n'] (lines.drop 1) else s
    some
      { header := if header = [] then none else some (String.mk header)
        blocks := (content.splitOn '\n').map renderLine }

/-- Interactive-mode renderer (`renderMarkdown`): split on `###`
boundaries, render each section.  A `null`/`undefined`/empty input
yields nothing. -/
def renderMarkdown (markdown : Option String) : List (Option MdSection) :=
  match markdown with
  | none => []
  | some md =>
    if md = "" then []
    else (splitBefore "###".toList md.toList).map renderSection

/-! ## Concrete inputs used by counterexamples and witnesses -/

/-- A category with five matches of which two are strong. -/
def cm5 : CategoryMatch :=
  { metadata := none
    disclosure_to_regulation_matches := some [
      { disclosure_text := some "d1", is_strong_match := false },
      { disclosure_text := some "d2", is_strong_match := true },
      { disclosure_text := some "d3", is_strong_match := false },
      { disclosure_text := some "d4", is_strong_match := true },
      { disclosure_text := some "d5", is_strong_match := false } ]
    regulation_to_disclosure_matches := none
    gap_analysis := none }

/-- A category whose match list is present but empty. -/
def cmEmpty : CategoryMatch :=
  { metadata := none
    disclosure_to_regulation_matches := some []
    regulation_to_disclosure_matches := none
    gap_analysis := none }

/-- A category whose match list is absent. -/
def cmNoField : CategoryMatch :=
  { metadata := none
    disclosure_to_regulation_matches := none
    regulation_to_disclosure_matches := none
    gap_analysis := none }

/-- A partially covered environmental regulation. -/
def regA : RegulationMatch :=
  { regulation_id := some "E1", regulation_text := some "Env partially covered reg",
    best_match_score := none, matched_disclosures := none }

/-- An uncovered social regulation. -/
def regB : RegulationMatch :=
  { regulation_id := some "S1", regulation_text := some "Soc uncovered reg",
    best_match_score := none, matched_disclosures := none }

/-- A covered environmental regulation. -/
def regC : RegulationMatch :=
  { regulation_id := some "E2", regulation_text := some "Env covered reg",
    best_match_score := none, matched_disclosures := none }

/-- Environmental category metadata. -/
def mdEnv : CategoryMetadata := { category := some "environmental", regulation_id := some "BRSR" }

/-- Social category metadata. -/
def mdSoc : CategoryMetadata := { category := some "social", regulation_id := some "BRSR" }

/-- An analysis result with one partially covered environmental
regulation and one uncovered social regulation: after the status sort
the first-variant output carries ids "2" then "1". -/
def dr1 : DetailedResults :=
  { environmental := some
      { metadata := some mdEnv
        disclosure_to_regulation_matches := none
        regulation_to_disclosure_matches := none
        gap_analysis := some
          { coverage_statistics := none
            uncovered_regulations := some []
            partially_covered_regulations := some [regA]
            covered_regulations := some [] } }
    social := some
      { metadata := some mdSoc
        disclosure_to_regulation_matches := none
        regulation_to_disclosure_matches := none
        gap_analysis := some
          { coverage_statistics := none
            uncovered_regulations := some [regB]
            partially_covered_regulations := some []
            covered_regulations := some [] } }
    governance := none }

/-- An analysis result with one covered environmental regulation and
one uncovered social regulation: the second-variant complete list is
`[COVERED, MISSING]`, not status-sorted. -/
def dr2 : DetailedResults :=
  { environmental := some
      { metadata := some mdEnv
        disclosure_to_regulation_matches := none
        regulation_to_disclosure_matches := none
        gap_analysis := some
          { coverage_statistics := none
            uncovered_regulations := some []
            partially_covered_regulations := some []
            covered_regulations := some [regC] } }
    social := some
      { metadata := some mdSoc
        disclosure_to_regulation_matches := none
        regulation_to_disclosure_matches := none
        gap_analysis := some
          { coverage_statistics := none
            uncovered_regulations := some [regB]
            partially_covered_regulations := some []
            covered_regulations := some [] } }
    governance := none }

/-- An analysis result with exactly one uncovered environmental
regulation (one `MISSING` row in the complete gap list). -/
def dr9 : DetailedResults :=
  { environmental := some
      { metadata := some mdEnv
        disclosure_to_regulation_matches := none
        regulation_to_disclosure_matches := none
        gap_analysis := some
          { coverage_statistics := none
            uncovered_regulations := some [regB]
            partially_covered_regulations := some []
            covered_regulations := some [] } }
    social := none
    governance := none }

/-- The markdown input of the renderer test property. -/
def md7 : String := "### Title\n**Bold** text\n* item1\n* item2"

/-- A single workbook row used to witness the non-empty export path. -/
def row9 : ExcelRow :=
  { category := "environmental", status := "MISSING", regulationId := "S1",
    frameworkText := "Soc uncovered reg", disclosureId := "N/A",
    disclosureText := "No matching disclosure found", regulationName := "BRSR",
    coverageScore := "N/A" }

/-- Decimal digit-string to natural number (the ids are decimal
numerals); used to state the id-ordering property. -/
def digitsToNat (l : List Char) : Nat :=
  l.foldl (fun acc c => acc * 10 + (c.toNat - 48)) 0

/-- Numeric value of a gap record's id string. -/
def idNum (g : GapRecord) : Nat := digitsToNat g.id.toList

/-- Boolean test that a list of naturals is strictly increasing; used
to state the id-ordering property. -/
def strictIncr : List Nat → Bool
  | [] => true
  | [_] => true
  | a :: b :: rest => decide (a < b) && strictIncr (b :: rest)

/-! ## Helper lemmas about the stable sort -/

theorem mem_insertByKey {α : Type} (key : α → Nat) (x : α) (l : List α) (z : α) :
    z ∈ insertByKey key x l ↔ z = x ∨ z ∈ l := by
  induction l with
  | nil => simp [insertByKey]
  | cons y ys ih =>
    simp only [insertByKey]
    split
    · simp [List.mem_cons]
    · simp only [List.mem_cons, ih]
      tauto

theorem pairwise_insertByKey {α : Type} (key : α → Nat) (x : α) (l : List α)
    (h : l.Pairwise (fun a b => key a ≤ key b)) :
    (insertByKey key x l).Pairwise (fun a b => key a ≤ key b) := by
  induction l with
  | nil => simp [insertByKey]
  | cons y ys ih =>
    rcases List.pairwise_cons.mp h with ⟨hy, hys⟩
    simp only [insertByKey]
    by_cases hxy : key x ≤ key y
    · rw [if_pos hxy]
      refine List.pairwise_cons.mpr ⟨?_, h⟩
      intro z hz
      rcases List.mem_cons.mp hz with rfl | hz'
      · exact hxy
      · exact le_trans hxy (hy z hz')
    · rw [if_neg hxy]
      refine List.pairwise_cons.mpr ⟨?_, ih hys⟩
      intro z hz
      rcases (mem_insertByKey key x ys z).mp hz with rfl | hz'
      · omega
      · exact hy z hz'

theorem pairwise_stableSortBy {α : Type} (key : α → Nat) (l : List α) :
    (stableSortBy key l).Pairwise (fun a b => key a ≤ key b) := by
  induction l with
  | nil => simp [stableSortBy]
  | cons x xs ih => exact pairwise_insertByKey key x _ ih

/-- Insertion does not disturb the sublist of elements a key-constant
predicate selects: stability of the sort, phrased through `filter`. -/
theorem filter_insertByKey {α : Type} (key : α → Nat) (p : α → Bool)
    (hp : ∀ a b, p a = true → p b = true → key a = key b) (x : α) (l : List α) :
    (insertByKey key x l).filter p =
      if p x then x :: l.filter p else l.filter p := by
  induction l with
  | nil => by_cases px : p x <;> simp [insertByKey, List.filter_cons, px]
  | cons y ys ih =>
    simp only [insertByKey]
    by_cases hxy : key x ≤ key y
    · rw [if_pos hxy]
      by_cases px : p x <;> simp [List.filter_cons, px]
    · rw [if_neg hxy]
      by_cases px : p x
      · have hy : ¬ p y = true := by
          intro hy'
          exact hxy (le_of_eq (hp x y px hy'))
        simp [List.filter_cons, hy, ih, px]
      · simp only [List.filter_cons, ih, if_neg px]

theorem filter_stableSortBy {α : Type} (key : α → Nat) (p : α → Bool)
    (hp : ∀ a b, p a = true → p b = true → key a = key b) (l : List α) :
    (stableSortBy key l).filter p = l.filter p := by
  induction l with
  | nil => rfl
  | cons x xs ih =>
    simp only [stableSortBy, filter_insertByKey key p hp, ih, List.filter_cons]

theorem insertByKey_of_le {α : Type} (key : α → Nat) (x : α) (l : List α)
    (h : ∀ z ∈ l, key x ≤ key z) : insertByKey key x l = x :: l := by
  cases l with
  | nil => rfl
  | cons y ys =>
    simp only [insertByKey]
    rw [if_pos (h y (List.mem_cons_self y ys))]

/-- A list already sorted by the key is a fixed point of the stable
sort. -/
theorem stableSortBy_of_pairwise {α : Type} (key : α → Nat) (l : List α)
    (h : l.Pairwise (fun a b => key a ≤ key b)) : stableSortBy key l = l := by
  induction l with
  | nil => rfl
  | cons x xs ih =>
    rcases List.pairwise_cons.mp h with ⟨hx, hxs⟩
    simp only [stableSortBy, ih hxs]
    exact insertByKey_of_le key x xs hx

theorem perm_insertByKey {α : Type} (key : α → Nat) (x : α) (l : List α) :
    (insertByKey key x l).Perm (x :: l) := by
  induction l with
  | nil => exact List.Perm.refl _
  | cons y ys ih =>
    simp only [insertByKey]
    by_cases h : key x ≤ key y
    · rw [if_pos h]
    · rw [if_neg h]
      exact (ih.cons y).trans (List.Perm.swap x y ys)

theorem perm_stableSortBy {α : Type} (key : α → Nat) (l : List α) :
    (stableSortBy key l).Perm l := by
  induction l with
  | nil => exact List.Perm.refl _
  | cons x xs ih =>
    exact (perm_insertByKey key x _).trans (ih.cons x)

/-! ## Helper lemmas about the first aggregator variant -/

theorem length_filter_numberRows (p : GapRecord → Bool) (q : RowInfo → Bool)
    (hpq : ∀ (i : Nat) (r : RowInfo), p (mkGapRecord i r) = q r) :
    ∀ (i : Nat) (rs : List RowInfo),
      ((numberRows i rs).filter p).length = (rs.filter q).length := by
  intro i rs
  induction rs generalizing i with
  | nil => rfl
  | cons r rs ih =>
    simp only [numberRows, List.filter_cons, hpq]
    by_cases hq : q r <;> simp [hq, ih]

theorem numberRows_map_id :
    ∀ (i : Nat) (rs : List RowInfo),
      (numberRows i rs).map (fun g => g.id) = (List.range' i rs.length).map toString := by
  intro i rs
  induction rs generalizing i with
  | nil => rfl
  | cons r rs ih => simp [numberRows, mkGapRecord, List.range'_succ, ih]

theorem category_of_mem_categoryRows (name : String) (cd? : Option CategoryMatch) :
    ∀ r ∈ categoryRows name cd?, r.category = name := by
  intro r hr
  cases cd? with
  | none => simp [categoryRows] at hr
  | some cd =>
    cases hga : cd.gap_analysis with
    | none => simp [categoryRows, hga] at hr
    | some ga =>
      simp only [categoryRows, hga, List.mem_append, List.mem_map] at hr
      rcases hr with (h | h) | h <;> obtain ⟨reg, hmem, rfl⟩ := h <;> rfl

theorem categoryRows_filter_ne (name c : String) (hne : name ≠ c) (p : RowInfo → Bool)
    (hp : ∀ r : RowInfo, p r = true → r.category = c)
    (cd? : Option CategoryMatch) :
    (categoryRows name cd?).filter p = [] := by
  rw [List.filter_eq_nil_iff]
  intro r hr hpr
  exact hne ((category_of_mem_categoryRows name cd? r hr).symm.trans (hp r hpr))

theorem length_filter_rowBlock_le (name rn st : String) (p : RowInfo → Bool)
    (lst : List RegulationMatch) :
    ((lst.map (fun reg =>
        ({ category := name, regName := rn, status := st, reg := reg } : RowInfo))).filter
      p).length ≤ lst.length :=
  le_trans (List.length_filter_le _ _) (le_of_eq (List.length_map _ _))

theorem filter_rowBlock_eq_nil (name rn st c st' : String) (hne : st ≠ st')
    (lst : List RegulationMatch) :
    (lst.map (fun reg =>
        ({ category := name, regName := rn, status := st, reg := reg } : RowInfo))).filter
      (fun r => r.category == c && r.status == st') = [] := by
  rw [List.filter_eq_nil_iff]
  intro r hr
  rcases List.mem_map.mp hr with ⟨reg, hmem, rfl⟩
  simp only [Bool.and_eq_true, beq_iff_eq, not_and]
  intro hcat hst
  exact hne hst

theorem categoryRows_missing_le (name c : String) (cd? : Option CategoryMatch) :
    ((categoryRows name cd?).filter
      (fun r => r.category == c && r.status == "missing")).length ≤ 3 := by
  cases cd? with
  | none => simp [categoryRows]
  | some cd =>
    cases hga : cd.gap_analysis with
    | none => simp [categoryRows, hga]
    | some ga =>
      simp only [categoryRows, hga, List.filter_append, List.length_append]
      have hA := le_trans
        (length_filter_rowBlock_le name (metaRegName cd.metadata) "missing"
          (fun r => r.category == c && r.status == "missing")
          ((ga.uncovered_regulations.getD []).take 3))
        (le_trans (le_of_eq (List.length_take _ _)) (min_le_left _ _))
      have hB := filter_rowBlock_eq_nil name (metaRegName cd.metadata) "partial" c "missing"
        (by decide) ((ga.partially_covered_regulations.getD []).take 2)
      have hC := filter_rowBlock_eq_nil name (metaRegName cd.metadata) "complete" c "missing"
        (by decide) ((ga.covered_regulations.getD []).take 1)
      rw [hB, hC]
      simpa using hA

theorem categoryRows_partCovered_le (name c : String) (cd? : Option CategoryMatch) :
    ((categoryRows name cd?).filter
      (fun r => r.category == c && r.status == "partial")).length ≤ 2 := by
  cases cd? with
  | none => simp [categoryRows]
  | some cd =>
    cases hga : cd.gap_analysis with
    | none => simp [categoryRows, hga]
    | some ga =>
      simp only [categoryRows, hga, List.filter_append, List.length_append]
      have hA := le_trans
        (length_filter_rowBlock_le name (metaRegName cd.metadata) "partial"
          (fun r => r.category == c && r.status == "partial")
          ((ga.partially_covered_regulations.getD []).take 2))
        (le_trans (le_of_eq (List.length_take _ _)) (min_le_left _ _))
      have hB := filter_rowBlock_eq_nil name (metaRegName cd.metadata) "missing" c "partial"
        (by decide) ((ga.uncovered_regulations.getD []).take 3)
      have hC := filter_rowBlock_eq_nil name (metaRegName cd.metadata) "complete" c "partial"
        (by decide) ((ga.covered_regulations.getD []).take 1)
      rw [hB, hC]
      simpa using hA

theorem categoryRows_covered_le (name c : String) (cd? : Option CategoryMatch) :
    ((categoryRows name cd?).filter
      (fun r => r.category == c && r.status == "complete")).length ≤ 1 := by
  cases cd? with
  | none => simp [categoryRows]
  | some cd =>
    cases hga : cd.gap_analysis with
    | none => simp [categoryRows, hga]
    | some ga =>
      simp only [categoryRows, hga, List.filter_append, List.length_append]
      have hA := le_trans
        (length_filter_rowBlock_le name (metaRegName cd.metadata) "complete"
          (fun r => r.category == c && r.status == "complete")
          ((ga.covered_regulations.getD []).take 1))
        (le_trans (le_of_eq (List.length_take _ _)) (min_le_left _ _))
      have hB := filter_rowBlock_eq_nil name (metaRegName cd.metadata) "missing" c "complete"
        (by decide) ((ga.uncovered_regulations.getD []).take 3)
      have hC := filter_rowBlock_eq_nil name (metaRegName cd.metadata) "partial" c "complete"
        (by decide) ((ga.partially_covered_regulations.getD []).take 2)
      rw [hB, hC]
      simpa using hA

theorem categoryRows_category_le (name c : String) (cd? : Option CategoryMatch) :
    ((categoryRows name cd?).filter (fun r => r.category == c)).length ≤ 6 := by
  refine le_trans (List.length_filter_le _ _) ?_
  cases cd? with
  | none => simp [categoryRows]
  | some cd =>
    cases hga : cd.gap_analysis with
    | none => simp [categoryRows, hga]
    | some ga =>
      simp only [categoryRows, hga, List.length_append, List.length_map, List.length_take]
      have h1 := min_le_left 3 (ga.uncovered_regulations.getD []).length
      have h2 := min_le_left 2 (ga.partially_covered_regulations.getD []).length
      have h3 := min_le_left 1 (ga.covered_regulations.getD []).length
      omega

theorem selectedRows_filter_le (dr : DetailedResults) (c : String) (p : RowInfo → Bool)
    (cap : Nat)
    (hp : ∀ r : RowInfo, p r = true → r.category = c)
    (hcap : ∀ (name : String) (cd? : Option CategoryMatch),
      ((categoryRows name cd?).filter p).length ≤ cap) :
    ((selectedRows dr).filter p).length ≤ cap := by
  simp only [selectedRows, List.filter_append, List.length_append]
  by_cases h1 : c = "environmental"
  · subst h1
    rw [categoryRows_filter_ne "social" _ (by decide) p hp,
      categoryRows_filter_ne "governance" _ (by decide) p hp]
    simpa using hcap "environmental" dr.environmental
  · by_cases h2 : c = "social"
    · subst h2
      rw [categoryRows_filter_ne "environmental" _ (by decide) p hp,
        categoryRows_filter_ne "governance" _ (by decide) p hp]
      simpa using hcap "social" dr.social
    · by_cases h3 : c = "governance"
      · subst h3
        rw [categoryRows_filter_ne "environmental" _ (by decide) p hp,
          categoryRows_filter_ne "social" _ (by decide) p hp]
        simpa using hcap "governance" dr.governance
      · rw [categoryRows_filter_ne "environmental" _ (fun h => h1 h.symm) p hp,
          categoryRows_filter_ne "social" _ (fun h => h2 h.symm) p hp,
          categoryRows_filter_ne "governance" _ (fun h => h3 h.symm) p hp]
        simp

/-- Transfer a filtered count through sort (a permutation) and the
`slice(0, 10)` (a sublist). -/
theorem extractGapAnalysis_filter_le (dr : DetailedResults) (p : GapRecord → Bool)
    (q : RowInfo → Bool) (hpq : ∀ (i : Nat) (r : RowInfo), p (mkGapRecord i r) = q r)
    (cap : Nat) (hsel : ((selectedRows dr).filter q).length ≤ cap) :
    ((extractGapAnalysis dr).filter p).length ≤ cap := by
  have h3 : ((extractGapAnalysis dr).filter p).length ≤
      ((stableSortBy (fun g => statusPriority g.status) (gatherGaps dr)).filter p).length :=
    ((List.take_sublist 10 _).filter p).length_le
  have h1 : ((stableSortBy (fun g => statusPriority g.status) (gatherGaps dr)).filter p).length =
      ((gatherGaps dr).filter p).length :=
    ((perm_stableSortBy _ _).filter p).length_eq
  have h2 : ((gatherGaps dr).filter p).length = ((selectedRows dr).filter q).length :=
    length_filter_numberRows p q hpq 1 _
  omega

/-! ## Claim theorems -/

/-- Claim C1, counterexample.  With one partially covered environmental
regulation and one uncovered social regulation, the first-variant Gap
Aggregator's returned list carries ids "2" (the social `missing`
record) and then "1" (the environmental `partial` record): after the
status sort the ids in the full output are not strictly increasing. -/
theorem gapAggregator_ids_not_increasing_cex :
    (extractGapAnalysis dr1).map (fun g => (g.id, g.status)) =
      [("2", "missing"), ("1", "partial")] ∧
    strictIncr ((extractGapAnalysis dr1).map idNum) = false := by
  constructor
  · decide
  · decide

/-- Claim C1, amended.  For every input, the first-variant Gap
Aggregator produces at most 3 `missing`, 2 `partial` and 1 `complete`
record per category (hence at most 6 per category), and the record ids
are assigned as the decimal strings of the consecutive integers
1, 2, …, n in the order the records are gathered, globally across the
whole aggregation (not reset per category); after the status-priority
sort the ids of the final output need not be in increasing order. -/
theorem gapAggregator_caps_and_id_assignment (dr : DetailedResults) :
    (∀ c : String,
      ((extractGapAnalysis dr).filter
        (fun g => g.category == c && g.status == "missing")).length ≤ 3 ∧
      ((extractGapAnalysis dr).filter
        (fun g => g.category == c && g.status == "partial")).length ≤ 2 ∧
      ((extractGapAnalysis dr).filter
        (fun g => g.category == c && g.status == "complete")).length ≤ 1 ∧
      ((extractGapAnalysis dr).filter (fun g => g.category == c)).length ≤ 6) ∧
    (gatherGaps dr).map (fun g => g.id) =
      (List.range' 1 (selectedRows dr).length).map toString := by
  constructor
  · intro c
    have hcat : ∀ r : RowInfo, (r.category == c) = true → r.category = c := by
      intro r h
      exact eq_of_beq h
    have hcatst : ∀ st : String, ∀ r : RowInfo,
        (r.category == c && r.status == st) = true → r.category = c := by
      intro st r h
      simp only [Bool.and_eq_true, beq_iff_eq] at h
      exact h.1
    refine ⟨?_, ?_, ?_, ?_⟩
    · exact extractGapAnalysis_filter_le dr _ (fun r => r.category == c && r.status == "missing")
        (fun i r => rfl) 3
        (selectedRows_filter_le dr c _ 3 (hcatst "missing")
          (fun name cd? => categoryRows_missing_le name c cd?))
    · exact extractGapAnalysis_filter_le dr _ (fun r => r.category == c && r.status == "partial")
        (fun i r => rfl) 2
        (selectedRows_filter_le dr c _ 2 (hcatst "partial")
          (fun name cd? => categoryRows_partCovered_le name c cd?))
    · exact extractGapAnalysis_filter_le dr _ (fun r => r.category == c && r.status == "complete")
        (fun i r => rfl) 1
        (selectedRows_filter_le dr c _ 1 (hcatst "complete")
          (fun name cd? => categoryRows_covered_le name c cd?))
    · exact extractGapAnalysis_filter_le dr _ (fun r => r.category == c)
        (fun i r => rfl) 6
        (selectedRows_filter_le dr c _ 6 hcat
          (fun name cd? => categoryRows_category_le name c cd?))
  · exact numberRows_map_id 1 _

/-- Claim C2.  The status sort of the first-variant Gap Aggregator,
applied to the gathered gap list, puts every `missing` record before
every `partial` record before every `complete` record (the output is
pairwise ordered by `statusPriority`), and it is stable: for every
status, the subsequence of records with that status is unchanged. -/
theorem gapSort_orders_and_stable (dr : DetailedResults) :
    ((stableSortBy (fun g => statusPriority g.status) (gatherGaps dr)).Pairwise
      (fun a b => statusPriority a.status ≤ statusPriority b.status)) ∧
    (∀ s : String,
      (stableSortBy (fun g => statusPriority g.status) (gatherGaps dr)).filter
          (fun g => g.status == s) =
        (gatherGaps dr).filter (fun g => g.status == s)) := by
  constructor
  · exact pairwise_stableSortBy _ _
  · intro s
    refine filter_stableSortBy _ _ ?_ _
    intro a b ha hb
    rw [eq_of_beq ha, eq_of_beq hb]

/-- Claim C3, counterexample.  With one covered environmental
regulation and one uncovered social regulation, the interactive-view
subset is `[COVERED, MISSING]` (the first 7 records in aggregation
order), while the first 7 records after the stable status-priority sort
would be `[MISSING, COVERED]`: the retained subset is not the sorted
prefix the claim describes. -/
theorem displayGaps_not_sorted_cex :
    (displayGaps dr2).map (fun r => r.status) = ["COVERED", "MISSING"] ∧
    (specDisplayGaps dr2).map (fun r => r.status) = ["MISSING", "COVERED"] ∧
    displayGaps dr2 ≠ specDisplayGaps dr2 := by
  refine ⟨by decide, by decide, by decide⟩

/-- Claim C3, amended.  The subset retained for the interactive view
equals the first 7 records of the complete gap list in aggregation
order — no status sort is applied first; it agrees with the spec's
sorted-prefix description exactly on inputs whose complete gap list is
already ordered by status priority. -/
theorem displayGaps_is_unsorted_take7 (dr : DetailedResults) :
    displayGaps dr = (extractGapAnalysisV2 dr).take 7 ∧
    ((extractGapAnalysisV2 dr).Pairwise
        (fun a b => specStatusPriority a.status ≤ specStatusPriority b.status) →
      displayGaps dr = specDisplayGaps dr) := by
  constructor
  · rfl
  · intro h
    unfold displayGaps specDisplayGaps
    rw [stableSortBy_of_pairwise _ _ h]

/-- Claim C3, witness for the amended theorem: on `dr9` (a single
`MISSING` row, already trivially sorted) the display subset and the
sorted prefix coincide. -/
theorem displayGaps_is_unsorted_take7_witness :
    displayGaps dr9 = specDisplayGaps dr9 :=
  (displayGaps_is_unsorted_take7 dr9).2 (by decide)

/-- Claim C4.  Whenever fewer than 4 of a category's matches are
strong, the Disclosure Sampler falls back to the first 4 matches
overall in received order, regardless of strength (each rendered
through the 80-character excerpt truncation). -/
theorem sampler_fallback (cd : CategoryMatch) (ms : List DisclosureMatch)
    (hms : cd.disclosure_to_regulation_matches = some ms)
    (hlt : (ms.filter (·.is_strong_match)).length < 4) :
    extractTopDisclosures (some cd) =
      (ms.take 4).map (fun m => truncateText m.disclosure_text 80) := by
  simp only [extractTopDisclosures, hms]
  have hlen : (((ms.filter (·.is_strong_match)).take 4).map
      (fun m => truncateText m.disclosure_text 80)).length < 4 := by
    rw [List.length_map, List.length_take]
    omega
  rw [if_pos hlen]

/-- Claim C4, witness: 2 strong matches among 5 total yield the first 4
of the 5 matches (`d1 … d4`), not the 2 strong ones. -/
theorem sampler_fallback_witness :
    extractTopDisclosures (some cm5) = ["d1", "d2", "d3", "d4"] := by
  have h := sampler_fallback cm5
    ((cm5.disclosure_to_regulation_matches).getD []) (by decide) (by decide)
  rw [h]
  decide

/-- Claim C5, counterexample.  A category whose
`disclosure_to_regulation_matches` is present but empty makes the
Disclosure Sampler return the empty sequence, not the single-element
sentinel the claim requires. -/
theorem sampler_empty_cex :
    extractTopDisclosures (some cmEmpty) = [] ∧
    extractTopDisclosures (some cmEmpty) ≠ ["No disclosure data available"] := by
  constructor
  · decide
  · decide

/-- Claim C5, amended.  The Sampler returns the single-element
sentinel only when the category data or its
`disclosure_to_regulation_matches` field is absent; when the field is
present but the empty sequence, it returns the empty sequence. -/
theorem sampler_sentinel_on_absent (cd : CategoryMatch) :
    extractTopDisclosures none = ["No disclosure data available"] ∧
    (cd.disclosure_to_regulation_matches = none →
      extractTopDisclosures (some cd) = ["No disclosure data available"]) ∧
    (cd.disclosure_to_regulation_matches = some [] →
      extractTopDisclosures (some cd) = []) := by
  refine ⟨rfl, ?_, ?_⟩
  · intro h
    simp [extractTopDisclosures, h]
  · intro h
    simp [extractTopDisclosures, h]

/-- Claim C5, witness for the amended theorem: both hypotheses realised
on concrete categories. -/
theorem sampler_sentinel_on_absent_witness :
    extractTopDisclosures (some cmNoField) = ["No disclosure data available"] ∧
    extractTopDisclosures (some cmEmpty) = [] :=
  ⟨(sampler_sentinel_on_absent cmNoField).2.1 rfl,
   (sampler_sentinel_on_absent cmEmpty).2.2 rfl⟩

/-- Claim C6.  The Report Cache serves a stored report exactly while
its age is under the 1-hour window: in particular 59 minutes
(3540000 ms) after `store` the report is returned, and 61 minutes
(3660000 ms) after `store` the load behaves as absent. -/
theorem cache_freshness (body : String) (t : Int) :
    loadCachedReport (some (storeReport body t)) (t + 3540000) = some (storeReport body t) ∧
    loadCachedReport (some (storeReport body t)) (t + 3660000) = none ∧
    (∀ now : Int, loadCachedReport (some (storeReport body t)) now =
      if now - t < freshWindowMs then some (storeReport body t) else none) := by
  refine ⟨?_, ?_, fun now => rfl⟩
  · simp only [loadCachedReport, storeReport, freshWindowMs]
    rw [if_pos (by omega)]
  · simp only [loadCachedReport, storeReport, freshWindowMs]
    rw [if_neg (by omega)]

/-- Claim C7, counterexample.  On the test input, Document mode does
not produce `<h3>Title</h3>` followed by
`<strong>Bold</strong> text<br><li>item1</li><li>item2</li>`: that
claimed tail does not even occur in the output, because a `<br>` is
inserted for the newline between the two list items (and after the
heading). -/
theorem markdown_doc_mode_cex :
    convertMarkdownToHTML (some md7) ≠
      "<h3>Title</h3><strong>Bold</strong> text<br><li>item1</li><li>item2</li>" ∧
    findSubIdx "<strong>Bold</strong> text<br><li>item1</li><li>item2</li>".toList
      (convertMarkdownToHTML (some md7)).toList = none := by
  constructor
  · decide
  · decide

/-- Claim C7, amended.  On `"### Title\n**Bold** text\n* item1\n* item2"`,
Interactive mode yields one section titled "Title" containing one
paragraph with the emphasized span "Bold" and the two list items
"item1" and "item2" (as claimed); Document mode yields
`<h3>Title</h3><br><strong>Bold</strong> text<br><li>item1</li><br><li>item2</li>`
— every newline becomes `<br>`, including after the heading and
between consecutive list items. -/
theorem markdown_two_modes :
    renderMarkdown (some md7) =
      [some { header := some "Title"
              blocks := [RBlock.boldPara
                           [InlinePart.plain "", InlinePart.bold "Bold", InlinePart.plain " text"],
                         RBlock.listItem "item1", RBlock.listItem "item2"] }] ∧
    convertMarkdownToHTML (some md7) =
      "<h3>Title</h3><br><strong>Bold</strong> text<br><li>item1</li><br><li>item2</li>" := by
  constructor
  · decide
  · decide

/-- Claim C8.  The tabular export refuses an empty gap record list with
an error surfaced to the caller (no workbook is produced), and produces
a workbook for every non-empty list. -/
theorem downloadExcel_refusal_and_success (gaps : List ExcelRow) (md : Option ReportMetadata) :
    downloadExcel [] md = Except.error "No gap analysis data available to download" ∧
    (gaps ≠ [] → ∃ wb : Workbook, downloadExcel gaps md = Except.ok wb) := by
  constructor
  · rfl
  · intro h
    match gaps, h with
    | g :: gs, _ => exact ⟨_, rfl⟩

/-- Claim C8, witness: the non-empty hypothesis realised on a one-row
list. -/
theorem downloadExcel_refusal_and_success_witness :
    ∃ wb : Workbook, downloadExcel [row9] none = Except.ok wb :=
  (downloadExcel_refusal_and_success [row9] none).2 (by decide)

/-- Claim C9, code bug.  On an input with exactly one uncovered
regulation the Gap Analysis sheet receives one `MISSING` row and the
total-regulations metric is "1" (correct), yet the Summary sheet
reports "Missing Coverage" as "0": the summary counts filter on the
lowercase statuses `missing`/`partial`/`complete` while the rows carry
the uppercase `MISSING`/`PARTIAL`/`COVERED`, so all three per-status
counts are always zero. -/
theorem summary_counts_always_zero_bug :
    (extractGapAnalysisV2 dr9).map (fun r => r.status) = ["MISSING"] ∧
    ((downloadExcel (extractGapAnalysisV2 dr9) none).toOption.map (fun wb =>
        ((wb.summarySheet.filter (fun r => r.metric == "Missing Coverage")).map
          (fun r => r.value),
         (wb.summarySheet.filter (fun r => r.metric == "Total Regulations Analyzed")).map
          (fun r => r.value)))) = some (["0"], ["1"]) := by
  constructor
  · decide
  · decide

/-- Claim C10.  `truncateText` leaves a non-empty string of length at
most the budget unchanged; a longer string becomes exactly its first
`n` characters followed by "..." (total length `n + 3`); a
`null`/`undefined`/empty input yields the fixed sentinel. -/
theorem truncateText_spec (s : String) (n : Nat) :
    truncateText none n = "No text available" ∧
    truncateText (some "") n = "No text available" ∧
    (s ≠ "" → s.length ≤ n → truncateText (some s) n = s) ∧
    (s ≠ "" → n < s.length →
      truncateText (some s) n = String.mk (s.toList.take n) ++ "..." ∧
      (truncateText (some s) n).length = n + 3) := by
  refine ⟨rfl, rfl, ?_, ?_⟩
  · intro hne hle
    simp [truncateText, hne, hle]
  · intro hne hlt
    have hgt : ¬ s.length ≤ n := by omega
    constructor
    · simp [truncateText, hne, hgt]
    · simp only [truncateText, if_neg hne, if_neg hgt]
      rw [String.length_append]
      have h1 : (String.mk (s.toList.take n)).length = n := by
        show (s.toList.take n).length = n
        rw [List.length_take]
        have : s.toList.length = s.length := rfl
        omega
      rw [h1]
      rfl

/-- Claim C10, witness: both conditional branches realised on concrete
strings. -/
theorem truncateText_spec_witness :
    truncateText (some "abcdef") 3 = "abc..." ∧
    (truncateText (some "abcdef") 3).length = 3 + 3 ∧
    truncateText (some "ab") 3 = "ab" := by
  have h1 := (truncateText_spec "abcdef" 3).2.2.2 (by decide) (by decide)
  have h2 := (truncateText_spec "ab" 3).2.2.1 (by decide) (by decide)
  refine ⟨?_, h1.2, h2⟩
  rw [h1.1]
  decide

end SAGE
